import Mathlib

/-!
Shallow embedding of the crypto-price-tracker backend core:
the circuit breaker, the admission controller (rate limiter), the
resource pool (browser manager), the feed extractor's price parsing,
the broadcast hub (websocket manager) and the subscription coordinator
(subscribeTicker).

Modelling conventions:
* JS `Map`s are functions `String → Option β`; `Set`s of strings are
  duplicate-free `List String`.
* Wall-clock times (`Date.now()`) are passed explicitly as `Int`
  millisecond timestamps.
* External effects (browser launch, page navigation, the initial
  extraction inside `startMonitoring`, liveness of a cached page, and
  whether `ws.send` throws) are passed as explicit outcome parameters.
* Numeric prices are modelled as exact decimals (`Decimal`), since the
  parsed text is a decimal numeral; JS float rounding is not modelled.
-/

/-- Update a string-keyed functional map at one key. -/
def fupdate {β : Type} (m : String → Option β) (k : String) (v : Option β) :
    String → Option β :=
  fun x => if x = k then v else m x

/-- Lexicographic order on char lists by code point, as JS string comparison. -/
def charListLe : List Char → List Char → Bool
  | [], _ => true
  | _ :: _, [] => false
  | a :: as, b :: bs =>
    if a.val < b.val then true
    else if b.val < a.val then false
    else charListLe as bs

/-- Boolean string order used to model `Array.prototype.sort()`. -/
def strLe (a b : String) : Bool := charListLe a.data b.data

/-- Check whether a char list starts with a pattern. -/
def listStartsWith : List Char → List Char → Bool
  | _, [] => true
  | [], _ :: _ => false
  | a :: as, b :: bs => a == b && listStartsWith as bs

/-- Check whether a pattern occurs as a contiguous sublist. -/
def listContainsSub : List Char → List Char → Bool
  | s, pat =>
    if listStartsWith s pat then true
    else
      match s with
      | [] => false
      | _ :: rest => listContainsSub rest pat

/-- Model of JS `String.prototype.includes`. -/
def strIncludes (s pat : String) : Bool := listContainsSub s.data pat.data

/-- Model of JS `Math.ceil(x / d)` on integers, for positive `d`. -/
def jsCeilDiv (x d : Int) : Int := -((-x).fdiv d)

/-- Model of JS `Math.min(...xs)`; the empty case (JS `Infinity`) is
unreachable at its single call site, which guards on a nonempty list. -/
def jsMinList : List Int → Int
  | [] => 0
  | x :: rest => rest.foldl min x

/-- Model of `String.prototype.toUpperCase` (tickers are ASCII). -/
def jsToUpper (s : String) : String := ⟨s.data.map Char.toUpper⟩

/-- Model of `String.prototype.trim`. -/
def jsTrim (s : String) : String :=
  ⟨((s.data.dropWhile Char.isWhitespace).reverse.dropWhile Char.isWhitespace).reverse⟩

/-- Sorted snapshot, modelling `Array.from(set).sort()`. -/
def sortTickers (l : List String) : List String :=
  List.insertionSort (fun a b => strLe a b = true) l

/-! ## Circuit breaker (src/unnamed/part_001, class CircuitBreaker) -/

inductive CircuitState
  | CLOSED
  | OPEN
  | HALF_OPEN
deriving DecidableEq, Repr

/-- Failure classification carried by `recordFailure`. -/
structure FailureType where
  ftype : String
  severity : String
deriving DecidableEq, Repr

structure FailureRecord where
  timestamp : Int
  failureType : FailureType
  service : String
  details : String
deriving DecidableEq, Repr

/-- Per-circuit statistics; `failureRate` is the percentage kept by
`updateFailureRate`. -/
structure CircuitStats where
  state : CircuitState
  failureCount : Nat
  successCount : Nat
  lastFailureTime : Int
  nextRetryTime : Int
  totalRequests : Nat
  failureRate : ℚ

structure CircuitConfig where
  failureThreshold : Nat
  recoveryTimeout : Int
  halfOpenMaxRequests : Nat
  windowSizeMs : Int

def browserConfig : CircuitConfig :=
  { failureThreshold := 5, recoveryTimeout := 30000
    halfOpenMaxRequests := 3, windowSizeMs := 60000 }

def websocketConfig : CircuitConfig :=
  { failureThreshold := 10, recoveryTimeout := 15000
    halfOpenMaxRequests := 5, windowSizeMs := 30000 }

def systemConfig : CircuitConfig :=
  { failureThreshold := 3, recoveryTimeout := 60000
    halfOpenMaxRequests := 2, windowSizeMs := 120000 }

/-- Circuit class selection by substring match on the circuit name. -/
def getConfig (circuitName : String) : CircuitConfig :=
  if strIncludes circuitName "browser" || strIncludes circuitName "playwright" then
    browserConfig
  else if strIncludes circuitName "websocket" || strIncludes circuitName "ws" then
    websocketConfig
  else systemConfig

structure CBState where
  circuits : String → Option CircuitStats
  failures : String → Option (List FailureRecord)

def defaultCircuit : CircuitStats :=
  { state := .CLOSED, failureCount := 0, successCount := 0
    lastFailureTime := 0, nextRetryTime := 0, totalRequests := 0, failureRate := 0 }

/-- Read a circuit's stats, defaulting to the freshly created record. -/
def circuitOf (cb : CBState) (n : String) : CircuitStats :=
  (cb.circuits n).getD defaultCircuit

def setCircuit (cb : CBState) (n : String) (c : CircuitStats) : CBState :=
  { cb with circuits := fupdate cb.circuits n (some c) }

/-- `getOrCreateCircuit`: returns the stats and the state after the
lazy insertion. -/
def getOrCreateCircuit (cb : CBState) (n : String) : CircuitStats × CBState :=
  match cb.circuits n with
  | some c => (c, cb)
  | none => (defaultCircuit, setCircuit cb n defaultCircuit)

/-- Failures of a circuit that are inside the rolling window at `now`. -/
def getRecentFailures (cb : CBState) (n : String) (now : Int) : List FailureRecord :=
  ((cb.failures n).getD []).filter
    (fun f => decide (f.timestamp ≥ now - (getConfig n).windowSizeMs))

/-- Drop failure records that have left the rolling window. -/
def cleanupOldFailures (cb : CBState) (n : String) (now : Int) : CBState :=
  match cb.failures n with
  | none => cb
  | some fs =>
    { cb with
      failures := fupdate cb.failures n
        (some (fs.filter (fun f => decide (f.timestamp ≥ now - (getConfig n).windowSizeMs)))) }

def updateFailureRate (cb : CBState) (n : String) (now : Int) : CBState :=
  let r := getOrCreateCircuit cb n
  let recent := getRecentFailures r.2 n now
  if r.1.totalRequests > 0 then
    setCircuit r.2 n
      { r.1 with failureRate := ((recent.length : ℚ) / max (r.1.totalRequests : ℚ) 10) * 100 }
  else r.2

/-- Transition a circuit to OPEN with `nextRetry = now + recoveryTimeout`. -/
def openCircuit (cb : CBState) (n : String) (now : Int) : CBState :=
  let r := getOrCreateCircuit cb n
  setCircuit r.2 n
    { r.1 with state := .OPEN, nextRetryTime := now + (getConfig n).recoveryTimeout }

/-- `canExecute`: CLOSED allows; OPEN allows only past the retry time,
with a one-shot transition to HALF_OPEN; HALF_OPEN allows while the
half-open success count is below the trial cap. -/
def canExecute (cb : CBState) (n : String) (now : Int) : Bool × CBState :=
  let r := getOrCreateCircuit cb n
  let c := r.1
  let cb := r.2
  match c.state with
  | .CLOSED => (true, cb)
  | .OPEN =>
    if now ≥ c.nextRetryTime then
      (true, setCircuit cb n { c with state := .HALF_OPEN, successCount := 0 })
    else (false, cb)
  | .HALF_OPEN =>
    (decide (c.successCount < (getConfig n).halfOpenMaxRequests), cb)

/-- `recordSuccess`: bump counters; reaching the half-open trial cap
closes the circuit and clears failure history. -/
def recordSuccess (cb : CBState) (n : String) (now : Int) : CBState :=
  let r := getOrCreateCircuit cb n
  let c := { r.1 with successCount := r.1.successCount + 1, totalRequests := r.1.totalRequests + 1 }
  let cb := setCircuit r.2 n c
  let cb :=
    if c.state = .HALF_OPEN then
      if c.successCount ≥ (getConfig n).halfOpenMaxRequests then
        cleanupOldFailures (setCircuit cb n { c with state := .CLOSED, failureCount := 0 }) n now
      else cb
    else cb
  updateFailureRate cb n now

/-- Bookkeeping prefix of `recordFailure`: append the failure record,
bump the counters, clean the window and refresh the rate; returns the
updated stats of the circuit alongside the new state. -/
def recordFailureBase (cb : CBState) (n : String) (ft : FailureType) (details : String)
    (now : Int) : CircuitStats × CBState :=
  let r := getOrCreateCircuit cb n
  let failure : FailureRecord :=
    { timestamp := now, failureType := ft, service := n, details := details }
  let cb1 := { r.2 with
    failures := fupdate r.2.failures n (some ((r.2.failures n).getD [] ++ [failure])) }
  let c := { r.1 with failureCount := r.1.failureCount + 1
                      totalRequests := r.1.totalRequests + 1
                      lastFailureTime := now }
  let cb2 := setCircuit cb1 n c
  let cb3 := cleanupOldFailures cb2 n now
  (c, updateFailureRate cb3 n now)

/-- `recordFailure`: append to the rolling window; if CLOSED and the
window count reached the threshold, open; any failure while HALF_OPEN
reopens immediately. -/
def recordFailure (cb : CBState) (n : String) (ft : FailureType) (details : String)
    (now : Int) : CBState :=
  let rb := recordFailureBase cb n ft details now
  let recent := getRecentFailures rb.2 n now
  if rb.1.state = .CLOSED ∧ recent.length ≥ (getConfig n).failureThreshold then
    openCircuit rb.2 n now
  else if rb.1.state = .HALF_OPEN then
    openCircuit rb.2 n now
  else rb.2

/-- Iterated `recordSuccess` at a fixed time (half-open trial sequence). -/
def recordSuccessN (cb : CBState) (n : String) (now : Int) : Nat → CBState
  | 0 => cb
  | j + 1 => recordSuccess (recordSuccessN cb n now j) n now

/-! ## Admission controller (src/backend/src/utils/rate-limiter.ts, class RateLimiter) -/

structure ClientRateLimit where
  subscriptionAttempts : List Int
  subscriptionCount : Int
  lastSubscriptionTime : Int
  warningsSent : Nat
deriving DecidableEq, Repr

def MAX_SUBSCRIPTIONS_PER_CLIENT : Int := 20

def MAX_SUBSCRIPTION_ATTEMPTS_PER_MINUTE : Nat := 30

def RATE_LIMIT_WINDOW_MS : Int := 60000

structure RLState where
  clients : String → Option ClientRateLimit

def rlFresh (now : Int) : ClientRateLimit :=
  { subscriptionAttempts := [], subscriptionCount := 0
    lastSubscriptionTime := now, warningsSent := 0 }

def setRLClient (rl : RLState) (id : String) (c : ClientRateLimit) : RLState :=
  { clients := fupdate rl.clients id (some c) }

def getOrCreateRLClient (rl : RLState) (id : String) (now : Int) :
    ClientRateLimit × RLState :=
  match rl.clients id with
  | some c => (c, rl)
  | none => (rlFresh now, setRLClient rl id (rlFresh now))

structure CanSubscribeResult where
  allowed : Bool
  reason : Option String
  waitTime : Option Int
deriving DecidableEq, Repr

/-- `canSubscribe`: concurrent-cap check, then sliding-window check with
a wait time derived from the oldest attempt still in the window. -/
def canSubscribe (rl : RLState) (id : String) (now : Int) :
    CanSubscribeResult × RLState :=
  let r := getOrCreateRLClient rl id now
  let c := r.1
  let rl := r.2
  if c.subscriptionCount ≥ MAX_SUBSCRIPTIONS_PER_CLIENT then
    (⟨false, some "Maximum concurrent subscriptions exceeded (20)", none⟩, rl)
  else
    let filtered := c.subscriptionAttempts.filter (fun a => decide (now - a < RATE_LIMIT_WINDOW_MS))
    let c := { c with subscriptionAttempts := filtered }
    let rl := setRLClient rl id c
    if filtered.length ≥ MAX_SUBSCRIPTION_ATTEMPTS_PER_MINUTE then
      let oldestAttempt := jsMinList filtered
      let waitTime := jsCeilDiv (RATE_LIMIT_WINDOW_MS - (now - oldestAttempt)) 1000
      let c := if c.warningsSent < 3 then { c with warningsSent := c.warningsSent + 1 } else c
      let rl := setRLClient rl id c
      (⟨false, some "Rate limit exceeded. Too many subscription attempts in the last minute",
        some waitTime⟩, rl)
    else (⟨true, none, none⟩, rl)

def recordSubscriptionAttempt (rl : RLState) (id : String) (now : Int) : RLState :=
  let r := getOrCreateRLClient rl id now
  setRLClient r.2 id
    { r.1 with subscriptionAttempts := r.1.subscriptionAttempts ++ [now]
               lastSubscriptionTime := now }

def recordSuccessfulSubscription (rl : RLState) (id : String) (now : Int) : RLState :=
  let r := getOrCreateRLClient rl id now
  setRLClient r.2 id { r.1 with subscriptionCount := r.1.subscriptionCount + 1 }

/-- `recordUnsubscription` clamps the counter at zero via `Math.max`. -/
def recordUnsubscription (rl : RLState) (id : String) : RLState :=
  match rl.clients id with
  | none => rl
  | some c => setRLClient rl id { c with subscriptionCount := max 0 (c.subscriptionCount - 1) }

def rlRemoveClient (rl : RLState) (id : String) : RLState :=
  match rl.clients id with
  | none => rl
  | some _ => { clients := fupdate rl.clients id none }

/-- Concurrent-subscription counter of a client, 0 when untracked. -/
def rlCounterOf (rl : RLState) (id : String) : Int :=
  ((rl.clients id).map ClientRateLimit.subscriptionCount).getD 0

/-- Operations of claim C9, applied through the websocket flows. -/
inductive RLOp
  | subSuccess (id : String) (now : Int)
  | unsub (id : String)

def applyRLOp (rl : RLState) : RLOp → RLState
  | .subSuccess id now => recordSuccessfulSubscription rl id now
  | .unsub id => recordUnsubscription rl id

def applyRLOps (rl : RLState) (ops : List RLOp) : RLState :=
  ops.foldl applyRLOp rl

/-! ## Feed extractor price parsing (src/backend/src/services/price-scraper.ts) -/

/-- Exact decimal `mant / 10 ^ scale`, the value parsed by `parsePrice`. -/
structure Decimal where
  mant : Nat
  scale : Nat
deriving DecidableEq, Repr

structure PriceData where
  ticker : String
  price : Decimal
  timestamp : Int
  change24h : Int
deriving DecidableEq, Repr

/-- First match of the regex `\d+\.?\d*`: integer digits and fraction digits. -/
def firstNumMatch : List Char → Option (List Char × List Char)
  | [] => none
  | c :: rest =>
    if c.isDigit then
      let ds := (c :: rest).takeWhile Char.isDigit
      match (c :: rest).dropWhile Char.isDigit with
      | '.' :: rest2 => some (ds, rest2.takeWhile Char.isDigit)
      | _ => some (ds, [])
    else firstNumMatch rest

def digitsToNat (ds : List Char) : Nat :=
  ds.foldl (fun acc c => acc * 10 + (c.toNat - 48)) 0

/-- `PriceScraper.parsePrice`: strip `[$\s,]`, match the first numeral,
accept only `0 < price ≤ 10,000,000`, and build the `PriceData` with
`change24h` hard-coded to 0. -/
def parsePrice (ticker : String) (now : Int) (priceText : String) : Option PriceData :=
  let cleanText := priceText.data.filter (fun c => !(c = '$' || c = ',' || c.isWhitespace))
  match firstNumMatch cleanText with
  | none => none
  | some (intDigits, fracDigits) =>
    let mant := digitsToNat (intDigits ++ fracDigits)
    let scale := fracDigits.length
    if mant = 0 then none
    else if mant > 10000000 * 10 ^ scale then none
    else some { ticker := ticker, price := ⟨mant, scale⟩, timestamp := now, change24h := 0 }

/-- `PriceScraper.extractPrice`, with the strategy cascade abstracted to
the text it found (or `none` when every strategy missed). -/
def extractPrice (ticker : String) (now : Int) (foundText : Option String) :
    Option PriceData :=
  match foundText with
  | none => none
  | some t => parsePrice ticker now t

/-! ## Resource pool (src/unnamed/part_002, class BrowserManager) -/

structure BrowserInstance where
  pages : List String
  refCount : Int
deriving DecidableEq, Repr

structure BMState where
  browsers : String → Option BrowserInstance
  cleanupScheduled : List String

/-- Declared per-shard page cap (`maxPagesPerBrowser`). -/
def maxPagesPerBrowser : Nat := 5

/-- Deterministic symbol → shard id: char-code sum modulo 3. -/
def getBrowserIdForTicker (ticker : String) : String :=
  let hash := ticker.data.foldl (fun acc c => acc + c.toNat) 0
  "browser-" ++ toString (hash % 3)

def cancelCleanup (bm : BMState) (browserId : String) : BMState :=
  { bm with cleanupScheduled := bm.cleanupScheduled.erase browserId }

def scheduleCleanup (bm : BMState) (browserId : String) : BMState :=
  { bm with cleanupScheduled := browserId :: bm.cleanupScheduled.erase browserId }

/-- External outcome of the browser/page creation steps inside
`getPageForTicker`; `navTimeoutFail` is the navigation-timeout sub-case
that records NETWORK_TIMEOUT before the outer catch records
PAGE_LOAD_FAILURE. -/
inductive AcquireOutcome
  | ok
  | browserCreateFail
  | navTimeoutFail
  | pageCreateFail
deriving DecidableEq

/-- `createPageForTicker` tail of `getPageForTicker`: create the page,
store it, bump the reference count and record the success. -/
def createPageStep (bm : BMState) (cb : CBState) (ticker browserId circuitName : String)
    (inst : BrowserInstance) (outcome : AcquireOutcome) (now : Int) :
    Except String Unit × BMState × CBState :=
  match outcome with
  | .browserCreateFail =>
    -- unreachable here: browser creation already succeeded
    (.error "Failed to create browser instance", bm, cb)
  | .navTimeoutFail =>
    let cb := recordFailure cb circuitName ⟨"NETWORK_TIMEOUT", "medium"⟩
      ("Network/timeout error loading page for ticker " ++ ticker) now
    let cb := recordFailure cb circuitName ⟨"PAGE_LOAD_FAILURE", "high"⟩
      ("Failed to create page for ticker " ++ ticker) now
    (.error "Failed to load TradingView page", bm, cb)
  | .pageCreateFail =>
    let cb := recordFailure cb circuitName ⟨"PAGE_LOAD_FAILURE", "high"⟩
      ("Failed to create page for ticker " ++ ticker) now
    (.error "Failed to create page", bm, cb)
  | .ok =>
    let inst := { inst with
      pages := if inst.pages.contains ticker then inst.pages else inst.pages ++ [ticker]
      refCount := inst.refCount + 1 }
    let bm := { bm with browsers := fupdate bm.browsers browserId (some inst) }
    let cb := recordSuccess cb circuitName now
    (.ok (), bm, cb)

/-- `BrowserManager.getPageForTicker`: circuit gate, lazy shard creation,
cached-page reuse behind a liveness probe, then page creation. -/
def getPageForTicker (bm : BMState) (cb : CBState) (ticker : String) (now : Int)
    (outcome : AcquireOutcome) (existingPageLive : Bool) :
    Except String Unit × BMState × CBState :=
  let browserId := getBrowserIdForTicker ticker
  let circuitName := "browser-" ++ browserId
  let r := canExecute cb circuitName now
  let cb := r.2
  if r.1 = false then
    (.error ("Browser circuit breaker is open for " ++ browserId), bm, cb)
  else
    match bm.browsers browserId with
    | none =>
      if outcome = .browserCreateFail then
        let cb := recordFailure cb circuitName ⟨"BROWSER_CRASH", "high"⟩
          "Failed to create browser instance" now
        (.error "Failed to create browser instance", bm, cb)
      else
        let inst : BrowserInstance := { pages := [], refCount := 0 }
        let bm := { bm with browsers := fupdate bm.browsers browserId (some inst) }
        createPageStep bm cb ticker browserId circuitName inst outcome now
    | some inst =>
      let bm := cancelCleanup bm browserId
      if inst.pages.contains ticker then
        if existingPageLive then (.ok (), bm, cb)
        else
          let inst := { inst with pages := inst.pages.erase ticker
                                  refCount := max 0 (inst.refCount - 1) }
          let bm := { bm with browsers := fupdate bm.browsers browserId (some inst) }
          createPageStep bm cb ticker browserId circuitName inst outcome now
      else createPageStep bm cb ticker browserId circuitName inst outcome now

/-- `BrowserManager.releasePageForTicker`: close and drop the page,
decrement the reference count, schedule shard teardown at zero pages. -/
def releasePageForTicker (bm : BMState) (ticker : String) : BMState :=
  let browserId := getBrowserIdForTicker ticker
  match bm.browsers browserId with
  | none => bm
  | some inst =>
    if inst.pages.contains ticker then
      let inst := { inst with pages := inst.pages.erase ticker, refCount := inst.refCount - 1 }
      let bm := { bm with browsers := fupdate bm.browsers browserId (some inst) }
      if inst.pages.length = 0 then scheduleCleanup bm browserId else bm
    else bm

/-- Acquire pages for a list of tickers in sequence, all external steps
succeeding; returns how many requests were granted and the final state. -/
def acquireAll (bm : BMState) (cb : CBState) (now : Int) :
    List String → Nat × BMState × CBState
  | [] => (0, bm, cb)
  | t :: rest =>
    let r := getPageForTicker bm cb t now .ok true
    let rec' := acquireAll r.2.1 r.2.2 now rest
    match r.1 with
    | .ok _ => (rec'.1 + 1, rec'.2)
    | .error _ => (rec'.1, rec'.2)

/-! ## Subscription coordinator (src/backend/src/services/crypto-stream-service.ts) -/

structure ValidationResult where
  isValid : Bool
  error : Option String
deriving DecidableEq, Repr

/-- `validateTicker`: non-empty, normalized length 2–10, alphanumeric. -/
def validateTicker (ticker : String) : ValidationResult :=
  if ticker = "" then ⟨false, some "Ticker must be a non-empty string"⟩
  else
    let cleanTicker := jsTrim (jsToUpper ticker)
    if cleanTicker.data.length < 2 then
      ⟨false, some "Ticker must be at least 2 characters long"⟩
    else if cleanTicker.data.length > 10 then
      ⟨false, some "Ticker must be no more than 10 characters long"⟩
    else if cleanTicker.data.all
        (fun c => (c.val ≥ 65 && c.val ≤ 90) || (c.val ≥ 48 && c.val ≤ 57)) then
      ⟨true, none⟩
    else ⟨false, some "Ticker must contain only alphanumeric characters"⟩

structure SubscriptionResponse where
  success : Bool
  message : String
  activeTickers : List String
deriving DecidableEq, Repr

/-- Result of `scraper.startMonitoring`: initial extraction hit,
validation failure (no initial price), or a thrown error. -/
inductive MonitorOutcome
  | success
  | validationFailed
  | threw
deriving DecidableEq

structure CoordState where
  activeScrapers : List String
  activeSubscriptions : List String
  bm : BMState
  cb : CBState

/-- Set-like insertion used for `Map.set` / `Set.add` keyed by ticker. -/
def addOnce (l : List String) (t : String) : List String :=
  if l.contains t then l else l ++ [t]

/-- `subscribeTicker`: validation, already-active fast path, page
acquisition, `startMonitoring`, and the catch blocks — including the
inner catch that logs a monitoring error and continues the
subscription. -/
def subscribeTicker (st : CoordState) (tickerReq : String) (now : Int)
    (acq : AcquireOutcome) (existingPageLive : Bool) (mon : MonitorOutcome) :
    SubscriptionResponse × CoordState :=
  let v := validateTicker tickerReq
  if v.isValid = false then
    (⟨false, v.error.getD "", sortTickers st.activeSubscriptions⟩, st)
  else
    let ticker := jsTrim (jsToUpper tickerReq)
    if st.activeSubscriptions.contains ticker then
      (⟨true, "Already subscribed to " ++ ticker, sortTickers st.activeSubscriptions⟩, st)
    else
      let r := getPageForTicker st.bm st.cb ticker now acq existingPageLive
      let bm := r.2.1
      let cb := r.2.2
      match r.1 with
      | .error e =>
        let bm := releasePageForTicker bm ticker
        (⟨false, "Failed to subscribe to " ++ ticker ++ ": " ++ e,
          sortTickers st.activeSubscriptions⟩,
         { st with bm := bm, cb := cb })
      | .ok _ =>
        match mon with
        | .validationFailed =>
          let bm := releasePageForTicker bm ticker
          (⟨false, "Ticker " ++ ticker ++ " not found - no price data available",
            sortTickers st.activeSubscriptions⟩,
           { st with bm := bm, cb := cb })
        | _ =>
          let st' := { st with
            activeScrapers := addOnce st.activeScrapers ticker
            activeSubscriptions := addOnce st.activeSubscriptions ticker
            bm := bm, cb := cb }
          (⟨true, "Successfully subscribed to " ++ ticker ++ " with real-time price monitoring",
            sortTickers st'.activeSubscriptions⟩, st')

/-- `getActiveSubscriptions` snapshot of the GlobalActiveSet. -/
def listActive (st : CoordState) : List String :=
  sortTickers st.activeSubscriptions

/-! ## Broadcast hub (src/unnamed/part_003, class WebSocketManager) -/

structure WSClient where
  wsOpen : Bool
  sendFails : Bool
  subscribedTickers : List String
  lastPing : Int
deriving DecidableEq, Repr

structure WSState where
  clients : String → Option WSClient
  tickerSubscribers : String → Option (List String)
  rl : RLState

/-- Remove an id from one reverse-index entry, deleting the entry when
it becomes empty (the `unsubscribe` / `removeClient` variant). -/
def removeSubscriberEntry (m : String → Option (List String)) (ticker id : String) :
    String → Option (List String) :=
  match m ticker with
  | none => m
  | some subs =>
    let subs := subs.erase id
    if subs.length = 0 then fupdate m ticker none else fupdate m ticker (some subs)

/-- Remove an id from one reverse-index entry, keeping the (possibly
empty) entry — the in-place `subscribers.delete` inside broadcast. -/
def removeSubscriberKeep (m : String → Option (List String)) (ticker id : String) :
    String → Option (List String) :=
  match m ticker with
  | none => m
  | some subs => fupdate m ticker (some (subs.erase id))

/-- `WebSocketManager.removeClient`: purge the registry entry, every
reverse-index entry the client subscribed to, and its rate-limiter state. -/
def removeClient (st : WSState) (clientId : String) : WSState :=
  match st.clients clientId with
  | none => st
  | some client =>
    let ts := client.subscribedTickers.foldl
      (fun m t => removeSubscriberEntry m t clientId) st.tickerSubscribers
    { clients := fupdate st.clients clientId none
      tickerSubscribers := ts
      rl := rlRemoveClient st.rl clientId }

/-- Liveness of a connection for broadcast purposes: registered, `OPEN`,
and `send` does not throw. -/
def isLive (st : WSState) (id : String) : Bool :=
  match st.clients id with
  | none => false
  | some c => c.wsOpen && !c.sendFails

/-- Iteration body of `broadcastPriceUpdate` over the subscriber set:
dead connections are removed and skipped, send failures trigger a full
`removeClient`, successful sends are collected. -/
def broadcastLoop (st : WSState) (ticker : String) :
    List String → List String → WSState × List String
  | [], delivered => (st, delivered)
  | clientId :: rest, delivered =>
    match st.clients clientId with
    | none =>
      let st' : WSState :=
        { st with tickerSubscribers := removeSubscriberKeep st.tickerSubscribers ticker clientId }
      broadcastLoop st' ticker rest delivered
    | some client =>
      if client.wsOpen = false then
        let st' : WSState :=
          { st with
            tickerSubscribers := removeSubscriberKeep st.tickerSubscribers ticker clientId
            clients := fupdate st.clients clientId none }
        broadcastLoop st' ticker rest delivered
      else if client.sendFails then
        broadcastLoop (removeClient st clientId) ticker rest delivered
      else
        broadcastLoop st ticker rest (delivered ++ [clientId])

/-- The `price_update` frame sent to each subscriber. -/
structure PriceUpdateFrame where
  ticker : String
  price : Decimal
  change24h : Int
  timestamp : Int
deriving DecidableEq, Repr

def priceUpdateFrame (pd : PriceData) : PriceUpdateFrame :=
  { ticker := pd.ticker, price := pd.price, change24h := pd.change24h
    timestamp := pd.timestamp }

/-- `WebSocketManager.broadcastPriceUpdate`: iterate the current
subscriber set of the update's ticker; returns the ids that received
the frame, in iteration order. -/
def broadcastPriceUpdate (st : WSState) (pd : PriceData) : WSState × List String :=
  match st.tickerSubscribers pd.ticker with
  | none => (st, [])
  | some subs =>
    if subs.length = 0 then (st, [])
    else broadcastLoop st pd.ticker subs []

/-! ## Initial (empty) states -/

def emptyCB : CBState := { circuits := fun _ => none, failures := fun _ => none }

def emptyBM : BMState := { browsers := fun _ => none, cleanupScheduled := [] }

def emptyRL : RLState := { clients := fun _ => none }

def emptyCoord : CoordState :=
  { activeScrapers := [], activeSubscriptions := [], bm := emptyBM, cb := emptyCB }

/-! Concrete states used by witnesses and counterexamples -/

/-- A rate-limiter state with one client holding 30 recorded attempts at
time 0 and no active subscriptions. -/
def rlThirtyAttempts : RLState :=
  { clients := fun i =>
      if i = "a" then some ⟨List.replicate 30 0, 0, 0, 0⟩ else none }

/-- A hub state with one dead client subscribed to two tickers. -/
def wsDeadTwoTickers : WSState :=
  { clients := fun i =>
      if i = "c1" then some ⟨false, false, ["AAA", "BBB"], 0⟩ else none
    tickerSubscribers := fun t =>
      if t = "AAA" then some ["c1"] else if t = "BBB" then some ["c1"] else none
    rl := { clients := fun i => if i = "c1" then some ⟨[], 1, 0, 0⟩ else none } }

/-- A hub state with one live client subscribed to one ticker, present
in the registry, the reverse index and the rate limiter. -/
def wsOneLive : WSState :=
  { clients := fun i =>
      if i = "c1" then some ⟨true, false, ["AAA"], 0⟩ else none
    tickerSubscribers := fun t => if t = "AAA" then some ["c1"] else none
    rl := { clients := fun i => if i = "c1" then some ⟨[], 1, 0, 0⟩ else none } }

/-- A hub state with two live subscribers and one dead subscriber of
ticker AAA. -/
def wsMixed : WSState :=
  { clients := fun i =>
      if i = "c1" then some ⟨true, false, ["AAA"], 0⟩
      else if i = "c2" then some ⟨false, false, ["AAA"], 0⟩
      else if i = "c3" then some ⟨true, false, ["AAA"], 0⟩
      else none
    tickerSubscribers := fun t => if t = "AAA" then some ["c1", "c2", "c3"] else none
    rl := { clients := fun _ => none } }

/-- A breaker state with two failures already in circuit x's window at
time 0; one more failure at time 0 reaches the system-class threshold
of 3. -/
def cbTwoFailures : CBState :=
  { circuits := fun _ => none
    failures := fun s =>
      if s = "x" then
        some [⟨0, ⟨"SYSTEM_ERROR", "high"⟩, "x", ""⟩, ⟨0, ⟨"SYSTEM_ERROR", "high"⟩, "x", ""⟩]
      else none }

/-! ## Helper lemmas -/

theorem fupdate_self {β : Type} (m : String → Option β) (k : String) (v : Option β) :
    fupdate m k v k = v := by
  simp [fupdate]

theorem fupdate_ne {β : Type} (m : String → Option β) (k : String) (v : Option β)
    (x : String) (h : x ≠ k) : fupdate m k v x = m x := by
  simp [fupdate, h]

theorem mem_addOnce_self (l : List String) (t : String) : t ∈ addOnce l t := by
  by_cases h : t ∈ l
  · simp [addOnce, h]
  · simp [addOnce, h]

theorem addOnce_nodup (l : List String) (t : String) (h : l.Nodup) :
    (addOnce l t).Nodup := by
  by_cases hm : t ∈ l
  · simpa [addOnce, hm] using h
  · simp [addOnce, hm, List.nodup_append, h]

theorem mem_sortTickers (l : List String) (a : String) :
    a ∈ sortTickers l ↔ a ∈ l :=
  (List.perm_insertionSort _ l).mem_iff

theorem count_sortTickers (l : List String) (a : String) :
    (sortTickers l).count a = l.count a :=
  (List.perm_insertionSort _ l).count_eq a

theorem foldl_min_mem (xs : List Int) (x : Int) :
    xs.foldl min x = x ∨ xs.foldl min x ∈ xs := by
  induction xs generalizing x with
  | nil => exact Or.inl rfl
  | cons y ys ih =>
    have hfold : List.foldl min x (y :: ys) = List.foldl min (min x y) ys := rfl
    rcases ih (min x y) with h | h
    · rcases min_choice x y with hm | hm
      · exact Or.inl (hfold.trans (h.trans hm))
      · refine Or.inr ?_
        rw [hfold, h, hm]
        exact List.mem_cons_self y ys
    · refine Or.inr ?_
      rw [hfold]
      exact List.mem_cons_of_mem _ h

theorem jsMinList_mem (xs : List Int) (h : xs ≠ []) : jsMinList xs ∈ xs := by
  match xs, h with
  | x :: rest, _ =>
    rcases foldl_min_mem rest x with h1 | h1
    · simp [jsMinList, h1]
    · simp [jsMinList, List.mem_cons_of_mem _ h1]

theorem jsCeilDiv_pos (x : Int) (h : 1 ≤ x) : 0 < jsCeilDiv x 1000 := by
  have hneg : (-x) < 0 := by omega
  have := Int.fdiv_neg' hneg (by norm_num : (0 : Int) < 1000)
  unfold jsCeilDiv
  omega

/-! ## Claim C10 -/

/-- C10: every PriceData produced by the extractor's parse carries
`change24h = 0`, regardless of the extracted text, and the broadcast
frame copies that zero. -/
theorem C10_change24h_always_zero (ticker : String) (now : Int) (text : Option String)
    (pd : PriceData) (h : extractPrice ticker now text = some pd) :
    pd.change24h = 0 ∧ (priceUpdateFrame pd).change24h = 0 := by
  cases text with
  | none => simp [extractPrice] at h
  | some t =>
    simp only [extractPrice, parsePrice] at h
    split at h
    · exact absurd h (by simp)
    · split at h
      · exact absurd h (by simp)
      · split at h
        · exact absurd h (by simp)
        · simp only [Option.some.injEq] at h
          subst h
          exact ⟨rfl, rfl⟩

/-- Witness for C10 at a concrete extracted text. -/
theorem C10_change24h_always_zero_witness :
    (⟨"BTC", ⟨5012345, 2⟩, 7, 0⟩ : PriceData).change24h = 0 ∧
    (priceUpdateFrame ⟨"BTC", ⟨5012345, 2⟩, 7, 0⟩).change24h = 0 :=
  C10_change24h_always_zero "BTC" 7 (some "$50,123.45") ⟨"BTC", ⟨5012345, 2⟩, 7, 0⟩ (by decide)

/-! ## Claim C9 -/

theorem rlCounterOf_nonneg_step (rl : RLState) (op : RLOp)
    (h : ∀ i, 0 ≤ rlCounterOf rl i) : ∀ i, 0 ≤ rlCounterOf (applyRLOp rl op) i := by
  intro i
  have hbase := h i
  cases op with
  | subSuccess id now =>
    unfold applyRLOp
    rcases hcl : rl.clients id with _ | c
    · simp only [recordSuccessfulSubscription, getOrCreateRLClient, setRLClient, hcl,
        rlCounterOf]
      by_cases hi : i = id
      · subst hi
        simp [fupdate_self, rlFresh]
      · simp only [fupdate_ne _ _ _ _ hi]
        simpa [rlCounterOf] using hbase
    · simp only [recordSuccessfulSubscription, getOrCreateRLClient, setRLClient, hcl,
        rlCounterOf]
      by_cases hi : i = id
      · subst hi
        rw [rlCounterOf, hcl] at hbase
        simp only [Option.map_some', Option.getD_some] at hbase
        simp only [fupdate_self, Option.map_some', Option.getD_some]
        omega
      · simp only [fupdate_ne _ _ _ _ hi]
        simpa [rlCounterOf] using hbase
  | unsub id =>
    unfold applyRLOp recordUnsubscription
    rcases hcl : rl.clients id with _ | c
    · simp only [hcl]
      exact hbase
    · simp only [hcl, rlCounterOf, setRLClient]
      by_cases hi : i = id
      · subst hi
        simp only [fupdate_self, Option.map_some', Option.getD_some]
        exact le_max_left _ _
      · simp only [fupdate_ne _ _ _ _ hi]
        simpa [rlCounterOf] using hbase

/-- C9: the per-client concurrent-subscription counter never becomes
negative under any sequence of subscription/unsubscription records, and
an unsubscription at counter 0 leaves it at 0. -/
theorem C9_subscription_counter_never_negative (rl : RLState) (ops : List RLOp)
    (id : String) (h0 : ∀ i, 0 ≤ rlCounterOf rl i) :
    0 ≤ rlCounterOf (applyRLOps rl ops) id ∧
    (∀ i, rlCounterOf rl i = 0 → rlCounterOf (recordUnsubscription rl i) i = 0) := by
  constructor
  · have main : ∀ (ops : List RLOp) (rl : RLState),
        (∀ i, 0 ≤ rlCounterOf rl i) → ∀ i, 0 ≤ rlCounterOf (applyRLOps rl ops) i := by
      intro ops
      induction ops with
      | nil => intro rl h i; exact h i
      | cons op rest ih =>
        intro rl h i
        exact ih (applyRLOp rl op) (rlCounterOf_nonneg_step rl op h) i
    exact main ops rl h0 id
  · intro i hz
    unfold recordUnsubscription
    rcases hcl : rl.clients i with _ | c
    · simp only [hcl]
      exact hz
    · rw [rlCounterOf, hcl] at hz
      simp only [Option.map_some', Option.getD_some] at hz
      simp only [hcl, rlCounterOf, setRLClient, fupdate_self, Option.map_some',
        Option.getD_some, hz]
      decide

/-- Witness for C9: two unsubscriptions after one subscription, from the
empty tracker. -/
theorem C9_subscription_counter_never_negative_witness :
    0 ≤ rlCounterOf (applyRLOps emptyRL [.subSuccess "a" 0, .unsub "a", .unsub "a"]) "a" ∧
    (∀ i, rlCounterOf emptyRL i = 0 → rlCounterOf (recordUnsubscription emptyRL i) i = 0) :=
  C9_subscription_counter_never_negative emptyRL [.subSuccess "a" 0, .unsub "a", .unsub "a"]
    "a" (fun i => by simp [rlCounterOf, emptyRL])

/-! ## Claim C4 -/

/-- C4 (code bug): `maxPagesPerBrowser = 5` is declared but never
enforced — six tickers that all hash to shard `browser-0` are all
granted sessions, leaving 6 pages on one shard, with no request
rejected. -/
theorem C4_shard_cap_not_enforced :
    (∀ t ∈ ["AAA", "ABC", "ACB", "BAC", "BCA", "BBB"],
      getBrowserIdForTicker t = "browser-0") ∧
    (acquireAll emptyBM emptyCB 0 ["AAA", "ABC", "ACB", "BAC", "BCA", "BBB"]).1 = 6 ∧
    ((acquireAll emptyBM emptyCB 0 ["AAA", "ABC", "ACB", "BAC", "BCA", "BBB"]).2.1.browsers
      "browser-0").map (fun i => i.pages.length) = some 6 ∧
    maxPagesPerBrowser < 6 := by
  refine ⟨by decide, by decide, by decide, by decide⟩

/-! ## Claim C1 -/

/-- C1 counterexample: with session acquisition succeeding and
`startMonitoring` throwing, `subscribeTicker` returns success and the
symbol IS added to the active set — not a resource error. -/
theorem C1_counterexample_monitor_throw_still_subscribes :
    (subscribeTicker emptyCoord "BTC" 0 .ok true .threw).1.success = true ∧
    "BTC" ∈ (subscribeTicker emptyCoord "BTC" 0 .ok true .threw).2.activeSubscriptions ∧
    "BTC" ∈ (subscribeTicker emptyCoord "BTC" 0 .ok true .threw).1.activeTickers := by
  refine ⟨by decide, by decide, by decide⟩

/-- With the circuit allowing execution and all creation steps
succeeding, `getPageForTicker` grants the request on every path. -/
theorem getPageForTicker_ok (bm : BMState) (cb : CBState) (t : String) (now : Int)
    (live : Bool)
    (hallow : (canExecute cb ("browser-" ++ getBrowserIdForTicker t) now).1 = true) :
    (getPageForTicker bm cb t now .ok live).1 = .ok () := by
  unfold getPageForTicker
  simp only [hallow]
  repeat' split
  all_goals simp_all [createPageStep]

/-! ## Claim C1 (amended theorem) -/

/-- C1 amended: when session acquisition succeeds but `startMonitoring`
throws, the inner catch swallows the error and the subscription
continues — the call returns success and the symbol IS added to the
GlobalActiveSet (it is left out only on validation failure or
acquisition failure). -/
theorem C1_amended_monitor_throw_continues_subscription
    (st : CoordState) (tickerReq : String) (now : Int) (live : Bool)
    (hv : (validateTicker tickerReq).isValid = true)
    (hna : jsTrim (jsToUpper tickerReq) ∉ st.activeSubscriptions)
    (hallow : (canExecute st.cb
      ("browser-" ++ getBrowserIdForTicker (jsTrim (jsToUpper tickerReq))) now).1 = true) :
    (subscribeTicker st tickerReq now .ok live .threw).1.success = true ∧
    jsTrim (jsToUpper tickerReq) ∈
      (subscribeTicker st tickerReq now .ok live .threw).2.activeSubscriptions ∧
    (subscribeTicker st tickerReq now .ok live .threw).1.message =
      "Successfully subscribed to " ++ jsTrim (jsToUpper tickerReq) ++
        " with real-time price monitoring" := by
  have hok := getPageForTicker_ok st.bm st.cb (jsTrim (jsToUpper tickerReq)) now live hallow
  have hcont : st.activeSubscriptions.contains (jsTrim (jsToUpper tickerReq)) = false := by
    simp [hna]
  unfold subscribeTicker
  simp only [hv, hcont]
  rw [if_neg (by simp), if_neg (by simp), hok]
  exact ⟨rfl, mem_addOnce_self _ _, rfl⟩

/-- Witness for the amended C1 theorem at the empty coordinator state. -/
theorem C1_amended_monitor_throw_continues_subscription_witness :
    (subscribeTicker emptyCoord "BTC" 0 .ok true .threw).1.success = true ∧
    jsTrim (jsToUpper "BTC") ∈
      (subscribeTicker emptyCoord "BTC" 0 .ok true .threw).2.activeSubscriptions ∧
    (subscribeTicker emptyCoord "BTC" 0 .ok true .threw).1.message =
      "Successfully subscribed to " ++ jsTrim (jsToUpper "BTC") ++
        " with real-time price monitoring" :=
  C1_amended_monitor_throw_continues_subscription emptyCoord "BTC" 0 true
    (by decide) (by decide) (by decide)

/-! ## Claim C7 -/

/-- C7: with the concurrent cap not reached, once 30 attempts sit in the
60-second window the next `canSubscribe` is denied with a wait time
derived from the oldest attempt and strictly positive; once every
attempt has rolled out of the window, `canSubscribe` allows again. -/
theorem C7_rate_window_denies_then_allows
    (rl : RLState) (id : String) (now now2 : Int) (c : ClientRateLimit)
    (hc : rl.clients id = some c)
    (hcap : c.subscriptionCount < MAX_SUBSCRIPTIONS_PER_CLIENT)
    (hwin : MAX_SUBSCRIPTION_ATTEMPTS_PER_MINUTE ≤
      (c.subscriptionAttempts.filter
        (fun a => decide (now - a < RATE_LIMIT_WINDOW_MS))).length)
    (hroll : ∀ a ∈ c.subscriptionAttempts, RATE_LIMIT_WINDOW_MS ≤ now2 - a) :
    (canSubscribe rl id now).1.allowed = false ∧
    (canSubscribe rl id now).1.waitTime =
      some (jsCeilDiv (RATE_LIMIT_WINDOW_MS - (now - jsMinList
        (c.subscriptionAttempts.filter
          (fun a => decide (now - a < RATE_LIMIT_WINDOW_MS))))) 1000) ∧
    0 < jsCeilDiv (RATE_LIMIT_WINDOW_MS - (now - jsMinList
      (c.subscriptionAttempts.filter
        (fun a => decide (now - a < RATE_LIMIT_WINDOW_MS))))) 1000 ∧
    (canSubscribe rl id now2).1.allowed = true := by
  have hfilterne : (c.subscriptionAttempts.filter
      (fun a => decide (now - a < RATE_LIMIT_WINDOW_MS))) ≠ [] := by
    intro hnil
    rw [hnil] at hwin
    simp [MAX_SUBSCRIPTION_ATTEMPTS_PER_MINUTE] at hwin
  have hmin := jsMinList_mem _ hfilterne
  have hminwin : now - jsMinList (c.subscriptionAttempts.filter
      (fun a => decide (now - a < RATE_LIMIT_WINDOW_MS))) < RATE_LIMIT_WINDOW_MS := by
    have := List.of_mem_filter hmin
    exact of_decide_eq_true this
  have hpos : 0 < jsCeilDiv (RATE_LIMIT_WINDOW_MS - (now - jsMinList
      (c.subscriptionAttempts.filter
        (fun a => decide (now - a < RATE_LIMIT_WINDOW_MS))))) 1000 :=
    jsCeilDiv_pos _ (by omega)
  refine ⟨?_, ?_, hpos, ?_⟩
  · unfold canSubscribe
    simp only [getOrCreateRLClient, hc]
    rw [if_neg (not_le.mpr hcap), if_pos hwin]
  · unfold canSubscribe
    simp only [getOrCreateRLClient, hc]
    rw [if_neg (not_le.mpr hcap), if_pos hwin]
  · unfold canSubscribe
    simp only [getOrCreateRLClient, hc]
    rw [if_neg (not_le.mpr hcap)]
    have hempty : (c.subscriptionAttempts.filter
        (fun a => decide (now2 - a < RATE_LIMIT_WINDOW_MS))) = [] := by
      rw [List.filter_eq_nil_iff]
      intro a ha
      have := hroll a ha
      simp only [decide_eq_true_eq]
      omega
    rw [hempty]
    rw [if_neg (by simp [MAX_SUBSCRIPTION_ATTEMPTS_PER_MINUTE])]

/-- Witness for C7: 30 attempts at time 0, checked at times 1 and 70000. -/
theorem C7_rate_window_denies_then_allows_witness :
    (canSubscribe rlThirtyAttempts "a" 1).1.allowed = false ∧
    (canSubscribe rlThirtyAttempts "a" 1).1.waitTime =
      some (jsCeilDiv (RATE_LIMIT_WINDOW_MS - (1 - jsMinList
        ((List.replicate 30 0).filter
          (fun a => decide (1 - a < RATE_LIMIT_WINDOW_MS))))) 1000) ∧
    0 < jsCeilDiv (RATE_LIMIT_WINDOW_MS - (1 - jsMinList
      ((List.replicate 30 0).filter
        (fun a => decide (1 - a < RATE_LIMIT_WINDOW_MS))))) 1000 ∧
    (canSubscribe rlThirtyAttempts "a" 70000).1.allowed = true :=
  C7_rate_window_denies_then_allows rlThirtyAttempts "a" 1 70000
    ⟨List.replicate 30 0, 0, 0, 0⟩ (by decide) (by decide) (by decide) (by decide)

/-! ## Failure-history bookkeeping lemmas -/

theorem setCircuit_failures (cb : CBState) (n : String) (c : CircuitStats) :
    (setCircuit cb n c).failures = cb.failures := rfl

theorem getOrCreateCircuit_failures (cb : CBState) (n : String) :
    ((getOrCreateCircuit cb n).2).failures = cb.failures := by
  unfold getOrCreateCircuit
  cases cb.circuits n <;> rfl

theorem updateFailureRate_failures (cb : CBState) (n : String) (now : Int) :
    (updateFailureRate cb n now).failures = cb.failures := by
  simp only [updateFailureRate]
  split
  · rw [setCircuit_failures, getOrCreateCircuit_failures]
  · rw [getOrCreateCircuit_failures]

theorem canExecute_failures (cb : CBState) (n : String) (now : Int) :
    ((canExecute cb n now).2).failures = cb.failures := by
  simp only [canExecute]
  split
  · rw [getOrCreateCircuit_failures]
  · split
    · rw [setCircuit_failures, getOrCreateCircuit_failures]
    · rw [getOrCreateCircuit_failures]
  · rw [getOrCreateCircuit_failures]

theorem cleanupOldFailures_len_le (cb : CBState) (n : String) (now : Int) (x : String) :
    (((cleanupOldFailures cb n now).failures x).getD []).length ≤
      ((cb.failures x).getD []).length := by
  unfold cleanupOldFailures
  cases hfs : cb.failures n with
  | none => exact le_refl _
  | some fs =>
    by_cases hx : x = n
    · subst hx
      simp only [fupdate_self, hfs, Option.getD_some]
      exact List.length_filter_le _ _
    · simp only [fupdate_ne _ _ _ _ hx]
      exact le_refl _

theorem recordSuccess_failures_len_le (cb : CBState) (n : String) (now : Int) (x : String) :
    (((recordSuccess cb n now).failures x).getD []).length ≤
      ((cb.failures x).getD []).length := by
  unfold recordSuccess
  rw [updateFailureRate_failures]
  split
  · split
    · calc (((cleanupOldFailures _ n now).failures x).getD []).length
          ≤ _ := cleanupOldFailures_len_le _ n now x
        _ = ((cb.failures x).getD []).length := by
            rw [setCircuit_failures, setCircuit_failures, getOrCreateCircuit_failures]
    · rw [setCircuit_failures, getOrCreateCircuit_failures]
  · rw [setCircuit_failures, getOrCreateCircuit_failures]

theorem getPageForTicker_ok_failures_len_le (bm : BMState) (cb : CBState) (t : String)
    (now : Int) (live : Bool) (x : String) :
    ((((getPageForTicker bm cb t now .ok live).2.2).failures x).getD []).length ≤
      ((cb.failures x).getD []).length := by
  have hcan := canExecute_failures cb ("browser-" ++ getBrowserIdForTicker t) now
  have hrs := recordSuccess_failures_len_le
    ((canExecute cb ("browser-" ++ getBrowserIdForTicker t) now).2)
    ("browser-" ++ getBrowserIdForTicker t) now x
  rw [hcan] at hrs
  by_cases hce : (canExecute cb ("browser-" ++ getBrowserIdForTicker t) now).1 = false
  · simp only [getPageForTicker]
    rw [if_pos hce]
    simp only [hcan]
    exact le_refl _
  · simp only [getPageForTicker]
    rw [if_neg hce]
    cases hbm : bm.browsers (getBrowserIdForTicker t) with
    | none =>
      dsimp only
      rw [if_neg (by decide : ¬ (AcquireOutcome.ok = AcquireOutcome.browserCreateFail))]
      simp only [createPageStep]
      exact hrs
    | some inst =>
      dsimp only
      by_cases hcont : inst.pages.contains t = true
      · rw [if_pos hcont]
        by_cases hlive : live = true
        · rw [if_pos hlive]
          simp only [hcan]
          exact le_refl _
        · rw [if_neg hlive]
          simp only [createPageStep]
          exact hrs
      · rw [if_neg hcont]
        simp only [createPageStep]
        exact hrs

/-! ## Page bookkeeping lemmas for acquisition and release -/

theorem getPageForTicker_ok_shape (bm : BMState) (cb : CBState) (t : String)
    (now : Int) (live : Bool)
    (hallow : (canExecute cb ("browser-" ++ getBrowserIdForTicker t) now).1 = true)
    (hpages : ∀ inst, bm.browsers (getBrowserIdForTicker t) = some inst → t ∉ inst.pages) :
    ∃ inst1 pages0,
      ((getPageForTicker bm cb t now .ok live).2.1).browsers (getBrowserIdForTicker t) =
        some inst1 ∧
      inst1.pages = pages0 ++ [t] ∧ t ∉ pages0 := by
  simp only [getPageForTicker, hallow]
  rw [if_neg (by simp)]
  cases hbm : bm.browsers (getBrowserIdForTicker t) with
  | none =>
    dsimp only
    rw [if_neg (by decide : ¬ (AcquireOutcome.ok = AcquireOutcome.browserCreateFail))]
    refine ⟨⟨[t], 1⟩, [], ?_, by simp, by simp⟩
    simp [createPageStep, fupdate_self]
  | some inst =>
    dsimp only
    have hnp : t ∉ inst.pages := hpages inst hbm
    have hcont : inst.pages.contains t = false := by simp [hnp]
    rw [if_neg (by simpa using hnp)]
    refine ⟨⟨inst.pages ++ [t], inst.refCount + 1⟩, inst.pages, ?_, rfl, hnp⟩
    simp [createPageStep, fupdate_self, hnp]

theorem releasePage_removes (bm : BMState) (t : String) (inst : BrowserInstance)
    (pages0 : List String)
    (hb : bm.browsers (getBrowserIdForTicker t) = some inst)
    (hshape : inst.pages = pages0 ++ [t]) (hnp : t ∉ pages0) :
    ∀ inst', (releasePageForTicker bm t).browsers (getBrowserIdForTicker t) = some inst' →
      t ∉ inst'.pages := by
  intro inst' h
  have herase : inst.pages.erase t = pages0 := by
    rw [hshape, List.erase_append_right _ hnp, List.erase_cons_head, List.append_nil]
  have hcont : inst.pages.contains t = true := by
    simp [hshape]
  simp only [releasePageForTicker, hb] at h
  rw [if_pos hcont] at h
  rw [herase] at h
  split at h
  · simp only [scheduleCleanup, fupdate_self] at h
    cases h
    exact hnp
  · simp only [fupdate_self] at h
    cases h
    exact hnp

/-! ## Claim C2 -/

/-- C2: for a syntactically valid symbol whose first extraction finds no
price, `subscribeTicker` returns a not-found failure, the symbol is in
neither the response snapshot nor the active set, the acquired page is
released, and no circuit gains a failure record. -/
theorem C2_not_found_denied_cleanly
    (st : CoordState) (tickerReq : String) (now : Int) (live : Bool)
    (hv : (validateTicker tickerReq).isValid = true)
    (hna : jsTrim (jsToUpper tickerReq) ∉ st.activeSubscriptions)
    (hallow : (canExecute st.cb
      ("browser-" ++ getBrowserIdForTicker (jsTrim (jsToUpper tickerReq))) now).1 = true)
    (hpages : ∀ inst,
      st.bm.browsers (getBrowserIdForTicker (jsTrim (jsToUpper tickerReq))) = some inst →
      jsTrim (jsToUpper tickerReq) ∉ inst.pages) :
    (subscribeTicker st tickerReq now .ok live .validationFailed).1.success = false ∧
    (subscribeTicker st tickerReq now .ok live .validationFailed).1.message =
      "Ticker " ++ jsTrim (jsToUpper tickerReq) ++ " not found - no price data available" ∧
    jsTrim (jsToUpper tickerReq) ∉
      (subscribeTicker st tickerReq now .ok live .validationFailed).1.activeTickers ∧
    jsTrim (jsToUpper tickerReq) ∉
      (subscribeTicker st tickerReq now .ok live .validationFailed).2.activeSubscriptions ∧
    (∀ inst',
      (subscribeTicker st tickerReq now .ok live .validationFailed).2.bm.browsers
        (getBrowserIdForTicker (jsTrim (jsToUpper tickerReq))) = some inst' →
      jsTrim (jsToUpper tickerReq) ∉ inst'.pages) ∧
    (∀ x, ((((subscribeTicker st tickerReq now .ok live .validationFailed).2.cb.failures
        x).getD []).length ≤ ((st.cb.failures x).getD []).length)) := by
  have hok := getPageForTicker_ok st.bm st.cb (jsTrim (jsToUpper tickerReq)) now live hallow
  have hcont : st.activeSubscriptions.contains (jsTrim (jsToUpper tickerReq)) = false := by
    simp [hna]
  have hred : subscribeTicker st tickerReq now .ok live .validationFailed =
      (⟨false, "Ticker " ++ jsTrim (jsToUpper tickerReq) ++
          " not found - no price data available",
        sortTickers st.activeSubscriptions⟩,
       { st with
          bm := releasePageForTicker
            (getPageForTicker st.bm st.cb (jsTrim (jsToUpper tickerReq)) now .ok live).2.1
            (jsTrim (jsToUpper tickerReq))
          cb := (getPageForTicker st.bm st.cb
            (jsTrim (jsToUpper tickerReq)) now .ok live).2.2 }) := by
    simp only [subscribeTicker, hv, hcont]
    rw [if_neg (by simp), if_neg (by simp), hok]
  rw [hred]
  obtain ⟨inst1, pages0, hb, hshape, hnp⟩ :=
    getPageForTicker_ok_shape st.bm st.cb (jsTrim (jsToUpper tickerReq)) now live hallow hpages
  refine ⟨rfl, rfl, ?_, hna, ?_, ?_⟩
  · simp only [mem_sortTickers]
    exact hna
  · exact releasePage_removes _ _ inst1 pages0 hb hshape hnp
  · intro x
    exact getPageForTicker_ok_failures_len_le st.bm st.cb _ now live x

/-- Witness for C2 at the empty coordinator state. -/
theorem C2_not_found_denied_cleanly_witness :
    (subscribeTicker emptyCoord "zzzinvalid" 0 .ok true .validationFailed).1.success = false ∧
    (subscribeTicker emptyCoord "zzzinvalid" 0 .ok true .validationFailed).1.message =
      "Ticker " ++ jsTrim (jsToUpper "zzzinvalid") ++ " not found - no price data available" ∧
    jsTrim (jsToUpper "zzzinvalid") ∉
      (subscribeTicker emptyCoord "zzzinvalid" 0 .ok true .validationFailed).1.activeTickers ∧
    jsTrim (jsToUpper "zzzinvalid") ∉
      (subscribeTicker emptyCoord "zzzinvalid" 0 .ok true .validationFailed).2.activeSubscriptions ∧
    (∀ inst',
      (subscribeTicker emptyCoord "zzzinvalid" 0 .ok true .validationFailed).2.bm.browsers
        (getBrowserIdForTicker (jsTrim (jsToUpper "zzzinvalid"))) = some inst' →
      jsTrim (jsToUpper "zzzinvalid") ∉ inst'.pages) ∧
    (∀ x, ((((subscribeTicker emptyCoord "zzzinvalid" 0 .ok true .validationFailed).2.cb.failures
        x).getD []).length ≤ ((emptyCoord.cb.failures x).getD []).length)) :=
  C2_not_found_denied_cleanly emptyCoord "zzzinvalid" 0 true
    (by decide) (by decide) (by decide) (by intro inst h; simp [emptyCoord, emptyBM] at h)

/-! ## Claim C8 -/

/-- A successful `subscribeTicker` leaves the normalized symbol in the
active set and preserves its duplicate-freeness. -/
theorem subscribeTicker_success_active (st : CoordState) (tickerReq : String) (now : Int)
    (acq : AcquireOutcome) (live : Bool) (mon : MonitorOutcome)
    (hnodup : st.activeSubscriptions.Nodup)
    (hsucc : (subscribeTicker st tickerReq now acq live mon).1.success = true) :
    jsTrim (jsToUpper tickerReq) ∈
      (subscribeTicker st tickerReq now acq live mon).2.activeSubscriptions ∧
    (subscribeTicker st tickerReq now acq live mon).2.activeSubscriptions.Nodup := by
  by_cases hval : (validateTicker tickerReq).isValid = false
  · exfalso
    simp [subscribeTicker, hval] at hsucc
  · by_cases hmem : jsTrim (jsToUpper tickerReq) ∈ st.activeSubscriptions
    · have hcont : st.activeSubscriptions.contains (jsTrim (jsToUpper tickerReq)) = true := by
        simp [hmem]
      have hred : subscribeTicker st tickerReq now acq live mon =
          (⟨true, "Already subscribed to " ++ jsTrim (jsToUpper tickerReq),
            sortTickers st.activeSubscriptions⟩, st) := by
        simp only [subscribeTicker, hcont]
        rw [if_neg hval, if_pos trivial]
      rw [hred]
      exact ⟨hmem, hnodup⟩
    · have hcont : st.activeSubscriptions.contains (jsTrim (jsToUpper tickerReq)) = false := by
        simp [hmem]
      cases hr : (getPageForTicker st.bm st.cb
          (jsTrim (jsToUpper tickerReq)) now acq live).1 with
      | error e =>
        exfalso
        have hred : (subscribeTicker st tickerReq now acq live mon).1.success = false := by
          simp only [subscribeTicker, hcont]
          rw [if_neg hval, if_neg (by simp), hr]
        rw [hred] at hsucc
        exact absurd hsucc (by simp)
      | ok u =>
        cases u
        cases mon with
        | validationFailed =>
          exfalso
          have hred : (subscribeTicker st tickerReq now acq live .validationFailed).1.success
              = false := by
            simp only [subscribeTicker, hcont]
            rw [if_neg hval, if_neg (by simp), hr]
          rw [hred] at hsucc
          exact absurd hsucc (by simp)
        | success =>
          have hred : (subscribeTicker st tickerReq now acq live .success).2.activeSubscriptions
              = addOnce st.activeSubscriptions (jsTrim (jsToUpper tickerReq)) := by
            simp only [subscribeTicker, hcont]
            rw [if_neg hval, if_neg (by simp), hr]
          rw [hred]
          exact ⟨mem_addOnce_self _ _, addOnce_nodup _ _ hnodup⟩
        | threw =>
          have hred : (subscribeTicker st tickerReq now acq live .threw).2.activeSubscriptions
              = addOnce st.activeSubscriptions (jsTrim (jsToUpper tickerReq)) := by
            simp only [subscribeTicker, hcont]
            rw [if_neg hval, if_neg (by simp), hr]
          rw [hred]
          exact ⟨mem_addOnce_self _ _, addOnce_nodup _ _ hnodup⟩

/-- C8: after a successful subscribe the sorted active snapshot holds
the symbol exactly once, and a second subscribe for the same symbol
succeeds immediately and returns the state unchanged — no second pooled
session, no change to the active set. -/
theorem C8_subscribe_idempotent_active_once
    (st : CoordState) (tickerReq : String) (now now2 : Int)
    (acq acq2 : AcquireOutcome) (live live2 : Bool) (mon mon2 : MonitorOutcome)
    (hnodup : st.activeSubscriptions.Nodup)
    (hv : (validateTicker tickerReq).isValid = true)
    (hsucc : (subscribeTicker st tickerReq now acq live mon).1.success = true) :
    (listActive (subscribeTicker st tickerReq now acq live mon).2).count
      (jsTrim (jsToUpper tickerReq)) = 1 ∧
    (subscribeTicker (subscribeTicker st tickerReq now acq live mon).2
      tickerReq now2 acq2 live2 mon2).1.success = true ∧
    (subscribeTicker (subscribeTicker st tickerReq now acq live mon).2
      tickerReq now2 acq2 live2 mon2).2 =
      (subscribeTicker st tickerReq now acq live mon).2 := by
  obtain ⟨hmem, hnd⟩ :=
    subscribeTicker_success_active st tickerReq now acq live mon hnodup hsucc
  generalize hst1 : (subscribeTicker st tickerReq now acq live mon).2 = st1 at hmem hnd ⊢
  have hcont2 : st1.activeSubscriptions.contains (jsTrim (jsToUpper tickerReq)) = true := by
    simp [hmem]
  have hred2 : subscribeTicker st1 tickerReq now2 acq2 live2 mon2 =
      (⟨true, "Already subscribed to " ++ jsTrim (jsToUpper tickerReq),
        sortTickers st1.activeSubscriptions⟩, st1) := by
    simp only [subscribeTicker, hcont2]
    rw [if_neg (by simp [hv]), if_pos trivial]
  rw [hred2]
  refine ⟨?_, rfl, rfl⟩
  rw [listActive, count_sortTickers]
  exact List.count_eq_one_of_mem hnd hmem

/-- Witness for C8 at the empty coordinator state. -/
theorem C8_subscribe_idempotent_active_once_witness :
    (listActive (subscribeTicker emptyCoord "BTC" 0 .ok true .success).2).count
      (jsTrim (jsToUpper "BTC")) = 1 ∧
    (subscribeTicker (subscribeTicker emptyCoord "BTC" 0 .ok true .success).2
      "BTC" 5 .ok true .success).1.success = true ∧
    (subscribeTicker (subscribeTicker emptyCoord "BTC" 0 .ok true .success).2
      "BTC" 5 .ok true .success).2 =
      (subscribeTicker emptyCoord "BTC" 0 .ok true .success).2 :=
  C8_subscribe_idempotent_active_once emptyCoord "BTC" 0 5 .ok .ok true true .success .success
    (by decide) (by decide) (by decide)

/-! ## Reverse-index removal lemmas -/

theorem removeSubscriberEntry_other (m : String → Option (List String)) (t id sym : String)
    (h : sym ≠ t) : removeSubscriberEntry m t id sym = m sym := by
  cases hmt : m t with
  | none => simp only [removeSubscriberEntry, hmt]
  | some subs =>
    simp only [removeSubscriberEntry, hmt]
    split
    · exact fupdate_ne _ _ _ _ h
    · exact fupdate_ne _ _ _ _ h

theorem removeSubscriberEntry_not_mem_self (m : String → Option (List String)) (t id : String)
    (hnd : ∀ subs, m t = some subs → subs.Nodup) :
    ∀ subs', removeSubscriberEntry m t id t = some subs' → id ∉ subs' := by
  intro subs' h
  cases hmt : m t with
  | none =>
    simp only [removeSubscriberEntry, hmt] at h
    exact absurd h (by simp)
  | some subs =>
    simp only [removeSubscriberEntry, hmt] at h
    split at h
    · rw [fupdate_self] at h
      exact absurd h (by simp)
    · rw [fupdate_self] at h
      cases h
      exact (hnd subs hmt).not_mem_erase

theorem removeSubscriberEntry_preserves_notmem (m : String → Option (List String))
    (t id sym : String) (h : ∀ subs, m sym = some subs → id ∉ subs) :
    ∀ subs', removeSubscriberEntry m t id sym = some subs' → id ∉ subs' := by
  intro subs' hs
  by_cases hst : sym = t
  · subst hst
    cases hmt : m sym with
    | none =>
      simp only [removeSubscriberEntry, hmt] at hs
      exact absurd hs (by simp)
    | some subs =>
      simp only [removeSubscriberEntry, hmt] at hs
      split at hs
      · rw [fupdate_self] at hs
        exact absurd hs (by simp)
      · rw [fupdate_self] at hs
        cases hs
        intro hmem
        exact h subs hmt (List.mem_of_mem_erase hmem)
  · rw [removeSubscriberEntry_other _ _ _ _ hst] at hs
    exact h subs' hs

theorem removeSubscriberEntry_preserves_nodup (m : String → Option (List String))
    (t id : String) (hnd : ∀ sym subs, m sym = some subs → subs.Nodup) :
    ∀ sym subs, removeSubscriberEntry m t id sym = some subs → subs.Nodup := by
  intro sym subs h
  by_cases hst : sym = t
  · subst hst
    cases hmt : m sym with
    | none =>
      simp only [removeSubscriberEntry, hmt] at h
      exact absurd h (by simp)
    | some subs0 =>
      simp only [removeSubscriberEntry, hmt] at h
      split at h
      · rw [fupdate_self] at h
        exact absurd h (by simp)
      · rw [fupdate_self] at h
        cases h
        exact List.Nodup.erase _ (hnd sym subs0 hmt)
  · rw [removeSubscriberEntry_other _ _ _ _ hst] at h
    exact hnd sym subs h

theorem fold_remove_other (id : String) :
    ∀ (ts : List String) (m : String → Option (List String)) (sym : String), sym ∉ ts →
      (ts.foldl (fun m t => removeSubscriberEntry m t id) m) sym = m sym := by
  intro ts
  induction ts with
  | nil => intro m sym _; rfl
  | cons t rest ih =>
    intro m sym hsym
    have h1 : sym ≠ t := fun he => hsym (he ▸ List.mem_cons_self t rest)
    have h2 : sym ∉ rest := fun hm => hsym (List.mem_cons_of_mem t hm)
    rw [List.foldl_cons, ih _ sym h2, removeSubscriberEntry_other _ _ _ _ h1]

theorem fold_remove_preserves_notmem (id : String) :
    ∀ (ts : List String) (m : String → Option (List String)) (sym : String),
      (∀ subs, m sym = some subs → id ∉ subs) →
      ∀ subs', (ts.foldl (fun m t => removeSubscriberEntry m t id) m) sym = some subs' →
        id ∉ subs' := by
  intro ts
  induction ts with
  | nil => intro m sym h subs' hs; exact h subs' hs
  | cons t rest ih =>
    intro m sym h subs' hs
    rw [List.foldl_cons] at hs
    exact ih _ sym (removeSubscriberEntry_preserves_notmem m t id sym h) subs' hs

theorem fold_remove_kills (id : String) :
    ∀ (ts : List String) (m : String → Option (List String)),
      (∀ sym subs, m sym = some subs → subs.Nodup) →
      ∀ sym ∈ ts, ∀ subs',
        (ts.foldl (fun m t => removeSubscriberEntry m t id) m) sym = some subs' →
        id ∉ subs' := by
  intro ts
  induction ts with
  | nil => intro m _ sym hsym; exact absurd hsym (by simp)
  | cons t rest ih =>
    intro m hnd sym hsym subs' hs
    rw [List.foldl_cons] at hs
    by_cases hmem : sym ∈ rest
    · exact ih _ (removeSubscriberEntry_preserves_nodup m t id hnd) sym hmem subs' hs
    · have hst : sym = t := by
        rcases List.mem_cons.mp hsym with h | h
        · exact h
        · exact absurd h hmem
      subst hst
      exact fold_remove_preserves_notmem id rest _ sym
        (removeSubscriberEntry_not_mem_self m sym id (hnd sym)) subs' hs

/-! ## Claim C5 -/

/-- C5 counterexample: a dead connection discovered during broadcast is
deleted from the registry and from the broadcast ticker's subscriber
set, but stays in the other ticker's reverse-index entry and keeps its
rate-limiter state. -/
theorem C5_counterexample_broadcast_dead_partial_purge :
    ((broadcastPriceUpdate wsDeadTwoTickers ⟨"AAA", ⟨1, 0⟩, 0, 0⟩).1.clients "c1" = none) ∧
    ((broadcastPriceUpdate wsDeadTwoTickers ⟨"AAA", ⟨1, 0⟩, 0, 0⟩).1.tickerSubscribers "BBB" =
      some ["c1"]) ∧
    (((broadcastPriceUpdate wsDeadTwoTickers ⟨"AAA", ⟨1, 0⟩, 0, 0⟩).1.rl.clients
      "c1").isSome = true) := by
  refine ⟨by decide, by decide, by decide⟩

/-- C5 amended: the `removeClient` purge (used by explicit disconnect,
transport error, heartbeat sweep, and send-failure during broadcast)
leaves the id in no registry entry, no reverse-index entry, and no
rate-limiter entry; only the readyState-dead shortcut inside broadcast
falls short of this. -/
theorem C5_amended_removeClient_full_purge
    (st : WSState) (id : String) (client : WSClient) (sym : String) (subs : List String)
    (hc : st.clients id = some client)
    (hnd : ∀ s l, st.tickerSubscribers s = some l → l.Nodup)
    (hconsist : ∀ s l, st.tickerSubscribers s = some l → id ∈ l → s ∈ client.subscribedTickers)
    (hsym : (removeClient st id).tickerSubscribers sym = some subs) :
    (removeClient st id).clients id = none ∧
    id ∉ subs ∧
    (removeClient st id).rl.clients id = none := by
  have hts : (removeClient st id).tickerSubscribers =
      client.subscribedTickers.foldl
        (fun m t => removeSubscriberEntry m t id) st.tickerSubscribers := by
    unfold removeClient
    rw [hc]
  refine ⟨?_, ?_, ?_⟩
  · unfold removeClient
    rw [hc]
    exact fupdate_self _ _ _
  · rw [hts] at hsym
    by_cases hmem : sym ∈ client.subscribedTickers
    · exact fold_remove_kills id client.subscribedTickers st.tickerSubscribers hnd
        sym hmem subs hsym
    · rw [fold_remove_other id client.subscribedTickers st.tickerSubscribers sym hmem]
        at hsym
      intro hin
      exact hmem (hconsist sym subs hsym hin)
  · unfold removeClient
    rw [hc]
    unfold rlRemoveClient
    cases hrl : st.rl.clients id with
    | none => exact hrl
    | some c => exact fupdate_self _ _ _

/-- Witness for the amended C5 theorem: removing the live client c1 of
`wsMixed` purges it everywhere while AAA keeps its other subscribers. -/
theorem C5_amended_removeClient_full_purge_witness :
    (removeClient wsMixed "c1").clients "c1" = none ∧
    "c1" ∉ ["c2", "c3"] ∧
    (removeClient wsMixed "c1").rl.clients "c1" = none :=
  C5_amended_removeClient_full_purge wsMixed "c1" ⟨true, false, ["AAA"], 0⟩ "AAA" ["c2", "c3"]
    (by decide)
    (by
      intro s l h
      simp only [wsMixed] at h
      split at h
      · cases h; decide
      · exact absurd h (by simp))
    (by
      intro s l h hin
      simp only [wsMixed] at h
      split at h
      · cases h
        simp_all
      · exact absurd h (by simp))
    (by decide)

/-! ## Broadcast iteration lemmas -/

theorem removeClient_clients_other (st : WSState) (c i : String) (h : i ≠ c) :
    (removeClient st c).clients i = st.clients i := by
  cases hcl : st.clients c with
  | none => simp only [removeClient, hcl]
  | some client =>
    simp only [removeClient, hcl]
    exact fupdate_ne _ _ _ _ h

theorem isLive_of_clients_eq (st st' : WSState) (i : String)
    (h : st'.clients i = st.clients i) : isLive st' i = isLive st i := by
  unfold isLive
  rw [h]

theorem broadcastLoop_delivered (ticker : String) :
    ∀ (pending : List String) (st : WSState) (delivered : List String),
      pending.Nodup →
      (broadcastLoop st ticker pending delivered).2 =
        delivered ++ pending.filter (fun i => isLive st i) := by
  intro pending
  induction pending with
  | nil =>
    intro st delivered _
    simp [broadcastLoop]
  | cons c rest ih =>
    intro st delivered hnd
    have hcrest : c ∉ rest := (List.nodup_cons.mp hnd).1
    have hndrest : rest.Nodup := (List.nodup_cons.mp hnd).2
    cases hcl : st.clients c with
    | none =>
      have hlivec : isLive st c = false := by simp [isLive, hcl]
      simp only [broadcastLoop, hcl]
      rw [ih _ delivered hndrest, List.filter_cons_of_neg (by simp [hlivec])]
      congr 1
    | some client =>
      by_cases hopen : client.wsOpen = false
      · have hlivec : isLive st c = false := by simp [isLive, hcl, hopen]
        simp only [broadcastLoop, hcl, hopen]
        rw [if_pos trivial]
        rw [ih _ delivered hndrest, List.filter_cons_of_neg (by simp [hlivec])]
        congr 1
        apply List.filter_congr
        intro i hi
        exact isLive_of_clients_eq _ _ i
          (fupdate_ne _ _ _ _ (fun he => hcrest (he ▸ hi)))
      · have hopen' : client.wsOpen = true := by
          cases h : client.wsOpen
          · exact absurd h hopen
          · rfl
        by_cases hfail : client.sendFails = true
        · have hlivec : isLive st c = false := by simp [isLive, hcl, hfail]
          simp only [broadcastLoop, hcl]
          rw [if_neg (by simp [hopen']), if_pos hfail]
          rw [ih _ delivered hndrest, List.filter_cons_of_neg (by simp [hlivec])]
          congr 1
          apply List.filter_congr
          intro i hi
          exact isLive_of_clients_eq _ _ i
            (removeClient_clients_other st c i (fun he => hcrest (he ▸ hi)))
        · have hfail' : client.sendFails = false := by
            cases h : client.sendFails
            · rfl
            · exact absurd h hfail
          have hlivec : isLive st c = true := by simp [isLive, hcl, hopen', hfail']
          simp only [broadcastLoop, hcl]
          rw [if_neg (by simp [hopen']), if_neg hfail]
          rw [ih _ (delivered ++ [c]) hndrest,
            List.filter_cons_of_pos (by simp [hlivec])]
          simp

/-! ## Claim C6 -/

/-- C6: a price update for a symbol is delivered exactly to the live
connections in that symbol's current subscriber set, in order — dead
connections are removed and skipped without aborting the iteration —
and every recipient is a subscriber of that symbol. -/
theorem C6_broadcast_delivers_exactly_live_subscribers
    (st : WSState) (pd : PriceData) (subs : List String) (recipient : String)
    (hsubs : st.tickerSubscribers pd.ticker = some subs)
    (hnd : subs.Nodup)
    (hrec : recipient ∈ (broadcastPriceUpdate st pd).2) :
    (broadcastPriceUpdate st pd).2 = subs.filter (fun i => isLive st i) ∧
    recipient ∈ subs := by
  have hmain : (broadcastPriceUpdate st pd).2 = subs.filter (fun i => isLive st i) := by
    simp only [broadcastPriceUpdate, hsubs]
    split
    · have hnil : subs = [] := by
        rename_i hlen
        exact List.length_eq_zero.mp hlen
      simp [hnil]
    · rw [broadcastLoop_delivered pd.ticker subs st [] hnd]
      simp
  refine ⟨hmain, ?_⟩
  rw [hmain] at hrec
  exact List.mem_of_mem_filter hrec

/-- Witness for C6 on a three-subscriber state with one dead connection:
the two live subscribers receive the frame, in order. -/
theorem C6_broadcast_delivers_exactly_live_subscribers_witness :
    (broadcastPriceUpdate wsMixed ⟨"AAA", ⟨1, 0⟩, 0, 0⟩).2 =
      (["c1", "c2", "c3"].filter (fun i => isLive wsMixed i)) ∧
    "c3" ∈ ["c1", "c2", "c3"] :=
  C6_broadcast_delivers_exactly_live_subscribers wsMixed ⟨"AAA", ⟨1, 0⟩, 0, 0⟩
    ["c1", "c2", "c3"] "c3" (by decide) (by decide) (by decide)

/-! ## Circuit-breaker state lemmas -/

theorem getConfig_window_nonneg (n : String) : 0 ≤ (getConfig n).windowSizeMs := by
  unfold getConfig
  split
  · decide
  · split
    · decide
    · decide

theorem getConfig_cap_pos (n : String) : 0 < (getConfig n).halfOpenMaxRequests := by
  unfold getConfig
  split
  · decide
  · split
    · decide
    · decide

theorem circuitOf_setCircuit_self (cb : CBState) (n : String) (c : CircuitStats) :
    circuitOf (setCircuit cb n c) n = c := by
  simp [circuitOf, setCircuit, fupdate_self]

theorem getOrCreateCircuit_fst (cb : CBState) (n : String) :
    (getOrCreateCircuit cb n).1 = circuitOf cb n := by
  unfold getOrCreateCircuit circuitOf
  cases cb.circuits n <;> rfl

theorem circuitOf_getOrCreate_snd (cb : CBState) (n : String) :
    circuitOf ((getOrCreateCircuit cb n).2) n = circuitOf cb n := by
  unfold getOrCreateCircuit
  cases h : cb.circuits n with
  | some c => simp [circuitOf, h]
  | none => simp [circuitOf, setCircuit, fupdate_self, h, defaultCircuit]

theorem cleanupOldFailures_circuits (cb : CBState) (n : String) (now : Int) :
    (cleanupOldFailures cb n now).circuits = cb.circuits := by
  unfold cleanupOldFailures
  cases cb.failures n <;> rfl

theorem circuitOf_cleanupOldFailures (cb : CBState) (n x : String) (now : Int) :
    circuitOf (cleanupOldFailures cb n now) x = circuitOf cb x := by
  unfold circuitOf
  rw [cleanupOldFailures_circuits]

theorem updateFailureRate_state (cb : CBState) (n : String) (now : Int) :
    (circuitOf (updateFailureRate cb n now) n).state = (circuitOf cb n).state := by
  simp only [updateFailureRate]
  split
  · rw [circuitOf_setCircuit_self, getOrCreateCircuit_fst]
  · rw [circuitOf_getOrCreate_snd]

theorem updateFailureRate_successCount (cb : CBState) (n : String) (now : Int) :
    (circuitOf (updateFailureRate cb n now) n).successCount =
      (circuitOf cb n).successCount := by
  simp only [updateFailureRate]
  split
  · rw [circuitOf_setCircuit_self, getOrCreateCircuit_fst]
  · rw [circuitOf_getOrCreate_snd]

theorem updateFailureRate_failureCount (cb : CBState) (n : String) (now : Int) :
    (circuitOf (updateFailureRate cb n now) n).failureCount =
      (circuitOf cb n).failureCount := by
  simp only [updateFailureRate]
  split
  · rw [circuitOf_setCircuit_self, getOrCreateCircuit_fst]
  · rw [circuitOf_getOrCreate_snd]

theorem updateFailureRate_nextRetryTime (cb : CBState) (n : String) (now : Int) :
    (circuitOf (updateFailureRate cb n now) n).nextRetryTime =
      (circuitOf cb n).nextRetryTime := by
  simp only [updateFailureRate]
  split
  · rw [circuitOf_setCircuit_self, getOrCreateCircuit_fst]
  · rw [circuitOf_getOrCreate_snd]

theorem circuitOf_openCircuit (cb : CBState) (n : String) (now : Int) :
    (circuitOf (openCircuit cb n now) n).state = .OPEN ∧
    (circuitOf (openCircuit cb n now) n).nextRetryTime =
      now + (getConfig n).recoveryTimeout := by
  simp only [openCircuit]
  rw [circuitOf_setCircuit_self]
  exact ⟨rfl, rfl⟩

theorem cleanupOldFailures_failures_self (cb : CBState) (n : String) (now : Int)
    (L : List FailureRecord) (h : cb.failures n = some L) :
    (cleanupOldFailures cb n now).failures n =
      some (L.filter (fun f => decide (f.timestamp ≥ now - (getConfig n).windowSizeMs))) := by
  simp only [cleanupOldFailures, h, fupdate_self]

theorem recordFailureBase_fst_state (cb : CBState) (n : String) (ft : FailureType)
    (d : String) (now : Int) :
    (recordFailureBase cb n ft d now).1.state = (circuitOf cb n).state := by
  simp only [recordFailureBase]
  rw [getOrCreateCircuit_fst]

theorem recordFailureBase_recent_len (cb : CBState) (n : String) (ft : FailureType)
    (d : String) (now : Int) :
    (getRecentFailures (recordFailureBase cb n ft d now).2 n now).length =
      (getRecentFailures cb n now).length + 1 := by
  have hw := getConfig_window_nonneg n
  simp only [recordFailureBase, getRecentFailures, updateFailureRate_failures]
  rw [cleanupOldFailures_failures_self _ _ _ _ (by rw [setCircuit_failures]; exact fupdate_self _ _ _)]
  rw [getOrCreateCircuit_failures]
  simp only [Option.getD_some, List.filter_filter, List.filter_append, Bool.and_self,
    List.length_append]
  congr 1
  simp only [List.filter_cons, List.filter_nil]
  rw [if_pos (by simp; omega)]
  simp

theorem canExecute_open_before (cb : CBState) (n : String) (now : Int)
    (h1 : (circuitOf cb n).state = .OPEN)
    (h2 : now < (circuitOf cb n).nextRetryTime) :
    (canExecute cb n now).1 = false := by
  simp only [canExecute, getOrCreateCircuit_fst, h1]
  rw [if_neg (by omega)]

theorem canExecute_open_after (cb : CBState) (n : String) (now : Int)
    (h1 : (circuitOf cb n).state = .OPEN)
    (h2 : (circuitOf cb n).nextRetryTime ≤ now) :
    (canExecute cb n now).1 = true ∧
    (circuitOf (canExecute cb n now).2 n).state = .HALF_OPEN ∧
    (circuitOf (canExecute cb n now).2 n).successCount = 0 := by
  simp only [canExecute, getOrCreateCircuit_fst, h1]
  rw [if_pos (by omega)]
  rw [circuitOf_setCircuit_self]
  exact ⟨rfl, rfl, rfl⟩

theorem canExecute_halfopen (cb : CBState) (n : String) (now : Int)
    (h1 : (circuitOf cb n).state = .HALF_OPEN) :
    (canExecute cb n now).1 =
      decide ((circuitOf cb n).successCount < (getConfig n).halfOpenMaxRequests) := by
  simp only [canExecute, getOrCreateCircuit_fst, h1]

theorem recordSuccess_halfopen_lt (cb : CBState) (n : String) (now : Int)
    (h1 : (circuitOf cb n).state = .HALF_OPEN)
    (hlt : (circuitOf cb n).successCount + 1 < (getConfig n).halfOpenMaxRequests) :
    (circuitOf (recordSuccess cb n now) n).state = .HALF_OPEN ∧
    (circuitOf (recordSuccess cb n now) n).successCount =
      (circuitOf cb n).successCount + 1 := by
  simp only [recordSuccess, getOrCreateCircuit_fst]
  rw [if_pos (by rw [h1]), if_neg (by omega)]
  rw [updateFailureRate_state, updateFailureRate_successCount, circuitOf_setCircuit_self]
  exact ⟨h1, rfl⟩

theorem recordSuccess_halfopen_close (cb : CBState) (n : String) (now : Int)
    (h1 : (circuitOf cb n).state = .HALF_OPEN)
    (hge : (getConfig n).halfOpenMaxRequests ≤ (circuitOf cb n).successCount + 1) :
    (circuitOf (recordSuccess cb n now) n).state = .CLOSED ∧
    (circuitOf (recordSuccess cb n now) n).failureCount = 0 := by
  simp only [recordSuccess, getOrCreateCircuit_fst]
  rw [if_pos (by rw [h1]), if_pos (by omega)]
  rw [updateFailureRate_state, updateFailureRate_failureCount, circuitOf_cleanupOldFailures,
    circuitOf_setCircuit_self]
  exact ⟨rfl, rfl⟩

theorem recordSuccessN_halfopen (cb : CBState) (n : String) (now : Int)
    (h1 : (circuitOf cb n).state = .HALF_OPEN)
    (h0 : (circuitOf cb n).successCount = 0) :
    ∀ j, j < (getConfig n).halfOpenMaxRequests →
      (circuitOf (recordSuccessN cb n now j) n).state = .HALF_OPEN ∧
      (circuitOf (recordSuccessN cb n now j) n).successCount = j := by
  intro j
  induction j with
  | zero => intro _; exact ⟨h1, h0⟩
  | succ k ih =>
    intro hlt
    have hk := ih (Nat.lt_of_succ_lt hlt)
    have hstep := recordSuccess_halfopen_lt (recordSuccessN cb n now k) n now hk.1
      (by rw [hk.2]; exact hlt)
    constructor
    · simp only [recordSuccessN]
      exact hstep.1
    · simp only [recordSuccessN]
      rw [hstep.2, hk.2]

theorem recordFailure_opens (cb : CBState) (n : String) (ft : FailureType) (d : String)
    (now : Int)
    (hcases : ((circuitOf cb n).state = .CLOSED ∧
        (getConfig n).failureThreshold ≤ (getRecentFailures cb n now).length + 1) ∨
      (circuitOf cb n).state = .HALF_OPEN) :
    (circuitOf (recordFailure cb n ft d now) n).state = .OPEN ∧
    (circuitOf (recordFailure cb n ft d now) n).nextRetryTime =
      now + (getConfig n).recoveryTimeout := by
  have hbase := recordFailureBase_fst_state cb n ft d now
  have hlen := recordFailureBase_recent_len cb n ft d now
  simp only [recordFailure]
  split
  · exact circuitOf_openCircuit _ n now
  · split
    · exact circuitOf_openCircuit _ n now
    · exfalso
      rename_i hn1 hn2
      rcases hcases with ⟨hcl, hthr⟩ | hho
      · exact hn1 ⟨by rw [hbase, hcl], by rw [hlen]; exact hthr⟩
      · exact hn2 (by rw [hbase, hho])

/-! ## Claim C3 -/

/-- C3: once the rolling-window failure count reaches the threshold
while CLOSED, the circuit opens with `nextRetry = now + recoveryTimeout`
and `canExecute` refuses every earlier instant; at or past the deadline
one call flips it to HALF_OPEN with a reset trial counter; while fewer
than `halfOpenMaxRequests` successes are recorded the circuit stays
HALF_OPEN and keeps permitting execution, the cap-th success closes it
and clears the failure count, and any failure recorded while HALF_OPEN
reopens it with a fresh deadline. -/
theorem C3_circuit_breaker_threshold_and_halfopen
    (cb : CBState) (n : String) (ft ft2 : FailureType) (d d2 : String)
    (tF tB tR tH : Int) (j : Nat)
    (hstate : (circuitOf cb n).state = .CLOSED)
    (hthr : (getConfig n).failureThreshold ≤ (getRecentFailures cb n tF).length + 1)
    (hB : tB < tF + (getConfig n).recoveryTimeout)
    (hR : tF + (getConfig n).recoveryTimeout ≤ tR)
    (hj : j < (getConfig n).halfOpenMaxRequests) :
    (circuitOf (recordFailure cb n ft d tF) n).state = .OPEN ∧
    (circuitOf (recordFailure cb n ft d tF) n).nextRetryTime =
      tF + (getConfig n).recoveryTimeout ∧
    (canExecute (recordFailure cb n ft d tF) n tB).1 = false ∧
    (canExecute (recordFailure cb n ft d tF) n tR).1 = true ∧
    (circuitOf (canExecute (recordFailure cb n ft d tF) n tR).2 n).state = .HALF_OPEN ∧
    (circuitOf (canExecute (recordFailure cb n ft d tF) n tR).2 n).successCount = 0 ∧
    (circuitOf (recordSuccessN (canExecute (recordFailure cb n ft d tF) n tR).2 n tR j)
      n).state = .HALF_OPEN ∧
    (circuitOf (recordSuccessN (canExecute (recordFailure cb n ft d tF) n tR).2 n tR j)
      n).successCount = j ∧
    (canExecute (recordSuccessN (canExecute (recordFailure cb n ft d tF) n tR).2 n tR j)
      n tR).1 = true ∧
    (circuitOf (recordSuccessN (canExecute (recordFailure cb n ft d tF) n tR).2 n tR
      (getConfig n).halfOpenMaxRequests) n).state = .CLOSED ∧
    (circuitOf (recordSuccessN (canExecute (recordFailure cb n ft d tF) n tR).2 n tR
      (getConfig n).halfOpenMaxRequests) n).failureCount = 0 ∧
    (circuitOf (recordFailure
      (recordSuccessN (canExecute (recordFailure cb n ft d tF) n tR).2 n tR j)
      n ft2 d2 tH) n).state = .OPEN ∧
    (circuitOf (recordFailure
      (recordSuccessN (canExecute (recordFailure cb n ft d tF) n tR).2 n tR j)
      n ft2 d2 tH) n).nextRetryTime = tH + (getConfig n).recoveryTimeout := by
  obtain ⟨hopen, hretry⟩ := recordFailure_opens cb n ft d tF (Or.inl ⟨hstate, hthr⟩)
  have hbefore : (canExecute (recordFailure cb n ft d tF) n tB).1 = false :=
    canExecute_open_before _ n tB hopen (by rw [hretry]; omega)
  obtain ⟨hexec, hho, hsc0⟩ :=
    canExecute_open_after (recordFailure cb n ft d tF) n tR hopen (by rw [hretry]; omega)
  obtain ⟨hjstate, hjcount⟩ :=
    recordSuccessN_halfopen (canExecute (recordFailure cb n ft d tF) n tR).2 n tR
      hho hsc0 j hj
  have hallow : (canExecute (recordSuccessN
      (canExecute (recordFailure cb n ft d tF) n tR).2 n tR j) n tR).1 = true := by
    rw [canExecute_halfopen _ n tR hjstate, hjcount]
    simpa using hj
  have hcap := getConfig_cap_pos n
  have hcapeq : (getConfig n).halfOpenMaxRequests =
      ((getConfig n).halfOpenMaxRequests - 1) + 1 := by omega
  obtain ⟨hkstate, hkcount⟩ :=
    recordSuccessN_halfopen (canExecute (recordFailure cb n ft d tF) n tR).2 n tR
      hho hsc0 ((getConfig n).halfOpenMaxRequests - 1) (by omega)
  have hclose := recordSuccess_halfopen_close
    (recordSuccessN (canExecute (recordFailure cb n ft d tF) n tR).2 n tR
      ((getConfig n).halfOpenMaxRequests - 1)) n tR hkstate (by rw [hkcount]; omega)
  have hcloseN :
      (circuitOf (recordSuccessN (canExecute (recordFailure cb n ft d tF) n tR).2 n tR
        (getConfig n).halfOpenMaxRequests) n).state = .CLOSED ∧
      (circuitOf (recordSuccessN (canExecute (recordFailure cb n ft d tF) n tR).2 n tR
        (getConfig n).halfOpenMaxRequests) n).failureCount = 0 := by
    rw [hcapeq]
    simp only [recordSuccessN]
    exact hclose
  obtain ⟨hreopen, hretry2⟩ := recordFailure_opens
    (recordSuccessN (canExecute (recordFailure cb n ft d tF) n tR).2 n tR j)
    n ft2 d2 tH (Or.inr hjstate)
  exact ⟨hopen, hretry, hbefore, hexec, hho, hsc0, hjstate, hjcount, hallow,
    hcloseN.1, hcloseN.2, hreopen, hretry2⟩

/-- Witness for C3: circuit x (system class: threshold 3, recovery 60s,
half-open cap 2) with two failures in the window, a third failure at
time 0, probes at 59999 and 60000, one half-open success, and a
half-open failure at 61000. -/
theorem C3_circuit_breaker_threshold_and_halfopen_witness :
    (circuitOf (recordFailure cbTwoFailures "x" ⟨"SYSTEM_ERROR", "high"⟩ "" 0) "x").state
      = .OPEN ∧
    (circuitOf (recordFailure cbTwoFailures "x" ⟨"SYSTEM_ERROR", "high"⟩ "" 0)
      "x").nextRetryTime = 0 + (getConfig "x").recoveryTimeout ∧
    (canExecute (recordFailure cbTwoFailures "x" ⟨"SYSTEM_ERROR", "high"⟩ "" 0)
      "x" 59999).1 = false ∧
    (canExecute (recordFailure cbTwoFailures "x" ⟨"SYSTEM_ERROR", "high"⟩ "" 0)
      "x" 60000).1 = true ∧
    (circuitOf (canExecute (recordFailure cbTwoFailures "x" ⟨"SYSTEM_ERROR", "high"⟩ "" 0)
      "x" 60000).2 "x").state = .HALF_OPEN ∧
    (circuitOf (canExecute (recordFailure cbTwoFailures "x" ⟨"SYSTEM_ERROR", "high"⟩ "" 0)
      "x" 60000).2 "x").successCount = 0 ∧
    (circuitOf (recordSuccessN (canExecute (recordFailure cbTwoFailures "x"
      ⟨"SYSTEM_ERROR", "high"⟩ "" 0) "x" 60000).2 "x" 60000 1) "x").state = .HALF_OPEN ∧
    (circuitOf (recordSuccessN (canExecute (recordFailure cbTwoFailures "x"
      ⟨"SYSTEM_ERROR", "high"⟩ "" 0) "x" 60000).2 "x" 60000 1) "x").successCount = 1 ∧
    (canExecute (recordSuccessN (canExecute (recordFailure cbTwoFailures "x"
      ⟨"SYSTEM_ERROR", "high"⟩ "" 0) "x" 60000).2 "x" 60000 1) "x" 60000).1 = true ∧
    (circuitOf (recordSuccessN (canExecute (recordFailure cbTwoFailures "x"
      ⟨"SYSTEM_ERROR", "high"⟩ "" 0) "x" 60000).2 "x" 60000
      (getConfig "x").halfOpenMaxRequests) "x").state = .CLOSED ∧
    (circuitOf (recordSuccessN (canExecute (recordFailure cbTwoFailures "x"
      ⟨"SYSTEM_ERROR", "high"⟩ "" 0) "x" 60000).2 "x" 60000
      (getConfig "x").halfOpenMaxRequests) "x").failureCount = 0 ∧
    (circuitOf (recordFailure (recordSuccessN (canExecute (recordFailure cbTwoFailures "x"
      ⟨"SYSTEM_ERROR", "high"⟩ "" 0) "x" 60000).2 "x" 60000 1) "x"
      ⟨"SYSTEM_ERROR", "high"⟩ "" 61000) "x").state = .OPEN ∧
    (circuitOf (recordFailure (recordSuccessN (canExecute (recordFailure cbTwoFailures "x"
      ⟨"SYSTEM_ERROR", "high"⟩ "" 0) "x" 60000).2 "x" 60000 1) "x"
      ⟨"SYSTEM_ERROR", "high"⟩ "" 61000) "x").nextRetryTime =
      61000 + (getConfig "x").recoveryTimeout :=
  C3_circuit_breaker_threshold_and_halfopen cbTwoFailures "x"
    ⟨"SYSTEM_ERROR", "high"⟩ ⟨"SYSTEM_ERROR", "high"⟩ "" ""
    0 59999 60000 61000 1
    (by decide) (by decide) (by decide) (by decide) (by decide)
